import Mathlib

/-!
A shallow embedding of the record-intake core of the TheBestBot
repository, with theorems checking its specification claims.

Embedded sources:
* src/Database.py   (class WiFiDB: checker, create, read, update, the
  Stroka_Db conversion path) over an explicit list-of-rows store that
  models the sqlite table wifi_networks with its bssid PRIMARY KEY;
* src/controler.py  (Controller.build_network, Controller.save_network,
  the WiFiNetwork dataclass, and the class attribute table);
* src/database.py   (_normalize_and_hash, Database.add_record) over an
  explicit list-of-rows store modelling the records table with its
  UNIQUE data_hash column;
* src/handlers.py   (_prepare_wifi_data, _validate_wifi_data,
  _is_example_payload, _process_single_wifi_record, the single-object
  branch of handle_text_or_file, process_pavilion, process_password);
* src/tools/stroka_db.py (class Stroka_Db).
-/

/-- Dynamic (JSON-like) Python values as they occur in the bot's record
dicts: integers, booleans (in Python a bool is a subtype of int),
floats (modelled as exact rationals; every float used in this
development is exactly representable), strings and None. -/
inductive Value where
  | vint (n : Int)
  | vbool (b : Bool)
  | vfloat (q : ℚ)
  | vstr (s : String)
  | vnull
deriving DecidableEq, Repr

/-- Python isinstance(x, str). -/
def Value.isStr : Value → Bool
  | .vstr _ => true
  | _ => false

/-- Python isinstance(x, int); true for bools as well (bool <: int). -/
def Value.isInt : Value → Bool
  | .vint _ => true
  | .vbool _ => true
  | _ => false

/-- Python isinstance(x, (int, float)). -/
def Value.isNum : Value → Bool
  | .vint _ => true
  | .vbool _ => true
  | .vfloat _ => true
  | _ => false

/-- The integer carried by an int-typed value (meaningful only under
isInt; the other branches are never read). -/
def Value.intVal : Value → Int
  | .vint n => n
  | .vbool b => if b then 1 else 0
  | _ => 0

/-- Numeric value used for order comparisons on int/bool/float values
(meaningful only under isNum). -/
def Value.numVal : Value → ℚ
  | .vint n => (n : ℚ)
  | .vbool b => if b then 1 else 0
  | .vfloat q => q
  | _ => 0

/-- The string carried by a str-typed value (meaningful only under
isStr). -/
def Value.strVal : Value → String
  | .vstr s => s
  | _ => ""

/-- The ASCII whitespace removed by Python str.strip() (no input in
this development carries unicode whitespace). -/
def pyWhitespace (c : Char) : Bool :=
  c = ' ' || c = '\t' || c = '\n' || c = '\r' || c = '\x0b' || c = '\x0c'

/-- Python str.strip(). -/
def pyStrip (s : String) : String :=
  String.mk (((s.data.dropWhile pyWhitespace).reverse.dropWhile pyWhitespace).reverse)

/-- Body of a Python decimal int literal: digits with single
underscores allowed between digits. -/
def intLitBody : List Char → Bool
  | [] => false
  | [c] => c.isDigit
  | c :: '_' :: rest => c.isDigit && intLitBody rest
  | c :: rest => c.isDigit && intLitBody rest

/-- Numeric value of a digits-and-underscores literal body. -/
def intLitVal (cs : List Char) : Int :=
  ((cs.filter (fun c => c ≠ '_')).foldl (fun a c => 10 * a + (c.toNat - '0'.toNat)) 0 : Nat)

/-- Python int(s) on a string: strip whitespace, optional sign, decimal
digit body; none models the ValueError on anything else. (Unicode
digits are not modelled; no input here uses them.) -/
def pyIntParse (s : String) : Option Int :=
  match (pyStrip s).data with
  | '+' :: rest => if intLitBody rest then some (intLitVal rest) else none
  | '-' :: rest => if intLitBody rest then some (-(intLitVal rest)) else none
  | rest => if intLitBody rest then some (intLitVal rest) else none

/-- Python int(x) on a float: truncation toward zero. -/
def ratTrunc (q : ℚ) : Int := if 0 ≤ q then q.floor else q.ceil

/-- Outcome of the Python int(x) coercion. -/
inductive PyCo where
  | ok (n : Int)
  | valueError
  | typeError
deriving DecidableEq, Repr

/-- Python int(x) on a dynamic value: ints and bools pass through,
floats truncate toward zero, strings parse (ValueError on failure),
None raises TypeError. -/
def pyIntCoerce : Value → PyCo
  | .vint n => .ok n
  | .vbool b => .ok (if b then 1 else 0)
  | .vfloat q => .ok (ratTrunc q)
  | .vstr s =>
    match pyIntParse s with
    | some n => .ok n
    | none => .valueError
  | .vnull => .typeError

/-- Fractional decimal digits of rem/den, up to the given fuel; helper
for the float branch of pyStr only. -/
def fracDigits : Nat → Nat → Nat → List Char
  | 0, _, _ => []
  | _ + 1, _, 0 => []
  | fuel + 1, den, rem =>
    Char.ofNat ('0'.toNat + (rem * 10) / den) :: fracDigits fuel den ((rem * 10) % den)

/-- Exact decimal rendering of a rational, an approximation of Python
float repr used only by the float branch of pyStr; no theorem in this
file evaluates str() on a float. -/
def floatRepr (q : ℚ) : String :=
  let sign := if q < 0 then "-" else ""
  let a := q.num.natAbs
  let ip := a / q.den
  let rem := a % q.den
  if rem = 0 then sign ++ toString ip ++ ".0"
  else sign ++ toString ip ++ "." ++ String.mk (fracDigits 64 q.den rem)

/-- Python str(x). -/
def pyStr : Value → String
  | .vint n => toString n
  | .vbool b => if b then "True" else "False"
  | .vfloat q => floatRepr q
  | .vstr s => s
  | .vnull => "None"

/-- A record dict as passed through the pipeline: the 14 schema fields
of Database.py plus the two scanner alias keys that
Controller.build_network normalises. none = the key is absent from the
dict. Extra unknown keys are never read by any embedded function and
are omitted (raw JSON objects for the dedup layer use BotDb.Obj
below). -/
structure Rec where
  bssid : Option Value := none
  frequency : Option Value := none
  rssi : Option Value := none
  ssid : Option Value := none
  timestamp : Option Value := none
  channel_bandwidth : Option Value := none
  capabilities : Option Value := none
  password : Option Value := none
  dns_server : Option Value := none
  gateway : Option Value := none
  my_ip : Option Value := none
  signal_level : Option Value := none
  pavilion_number : Option Value := none
  floor : Option Value := none
  frequency_mhz : Option Value := none
  channel_bandwidth_mhz : Option Value := none
deriving DecidableEq, Repr

/-- Is c an ASCII hex digit, [0-9a-fA-F]? -/
def isHexDigit (c : Char) : Bool :=
  (('0' ≤ c) && (c ≤ '9')) || (('a' ≤ c) && (c ≤ 'f')) || (('A' ≤ c) && (c ≤ 'F'))

/-- End-of-match test for Python re: the dollar anchor matches at the
end of the string and also just before one trailing newline. -/
def pyDollarEnd : List Char → Bool
  | [] => true
  | ['\n'] => true
  | _ => false

/-- n+1 colon-separated hex pairs followed by an end accepted by the
given end test. -/
def macAux (endOk : List Char → Bool) : Nat → List Char → Bool
  | 0, a :: b :: rest => isHexDigit a && isHexDigit b && endOk rest
  | n + 1, a :: b :: c :: rest => isHexDigit a && isHexDigit b && (c = ':') && macAux endOk n rest
  | _, _ => false

/-- Database.py line 94: Python re.match of
    ^([0-9a-fA-F]2:)5[0-9a-fA-F]2$   (braced counts written inline)
so six colon-separated hex pairs, where the final dollar also accepts a
single trailing newline (Python re semantics). -/
def pyMacMatch (s : String) : Bool := macAux pyDollarEnd 5 s.data

/-- Modelled from the spec wording, for comparison with pyMacMatch: the
bssid "matches the MAC pattern XX:XX:XX:XX:XX:XX" — the whole string
is exactly six colon-separated hex pairs, nothing after. -/
def specMacMatch (s : String) : Bool := macAux List.isEmpty 5 s.data

/-- Outcome of WiFiDB.checker: ok models the Python return value True,
reject msg models returning the error string, raise models an uncaught
exception (re.match raises TypeError on a non-string bssid). -/
inductive CheckOut where
  | ok
  | reject (msg : String)
  | raise (msg : String)
deriving DecidableEq, Repr

def msgMissing (k : String) : String := "Отсутствует обязательное поле: " ++ k
def msgMustStr (f : String) : String := "Поле \x27" ++ f ++ "\x27 должно быть строкой."
def msgMustInt (f : String) : String := "Поле \x27" ++ f ++ "\x27 должно быть целым числом."
def msgBadBssid : String := "Неверный формат BSSID (ожидается XX:XX:XX:XX:XX:XX)"
def msgBadFreq : String := "Поле \x27frequency\x27 должно быть положительным целым числом."
def msgBadRssi : String := "Поле \x27rssi\x27 должно быть целым числом в диапазоне от -100 до 0."
def msgBadTs : String := "Поле \x27timestamp\x27 должно быть неотрицательным целым числом."
def msgBadSsid : String := "Поле \x27ssid\x27 должно быть непустой строкой."
def msgBadBw : String :=
  "Поле \x27channel_bandwidth\x27 должно быть одной из строк: \x2720\x27, \x2740\x27, \x2780\x27, \x27160\x27."
def msgBadCap : String := "Поле \x27capabilities\x27 должно быть строкой."
def msgReTypeError : String := "TypeError: expected string or bytes-like object"

/-- Python condition "field in data and not isinstance(data[field], str)". -/
def optStrBad : Option Value → Bool
  | none => false
  | some v => !v.isStr

/-- Python condition "field in data and not isinstance(data[field], int)". -/
def optIntBad : Option Value → Bool
  | none => false
  | some v => !v.isInt

/-- The channel_bandwidth whitelist of Database.py line 120. -/
def bwSet : List String := ["20", "40", "80", "160"]

namespace WiFiDB

/-- Database.py WiFiDB.checker (lines 71-128): sequential checks, first
failure wins, in source order — required presence, optional string
types, optional int types, then bssid regex, frequency, rssi,
timestamp, ssid, channel_bandwidth, capabilities. Each value check is
the literal "if not (...): return msg" condition of the source. -/
def checker (d : Rec) : CheckOut :=
  if d.bssid.isNone then .reject (msgMissing "bssid")
  else if d.frequency.isNone then .reject (msgMissing "frequency")
  else if d.rssi.isNone then .reject (msgMissing "rssi")
  else if d.ssid.isNone then .reject (msgMissing "ssid")
  else if d.timestamp.isNone then .reject (msgMissing "timestamp")
  else if d.channel_bandwidth.isNone then .reject (msgMissing "channel_bandwidth")
  else if d.capabilities.isNone then .reject (msgMissing "capabilities")
  else if optStrBad d.password then .reject (msgMustStr "password")
  else if optStrBad d.dns_server then .reject (msgMustStr "dns_server")
  else if optStrBad d.gateway then .reject (msgMustStr "gateway")
  else if optStrBad d.my_ip then .reject (msgMustStr "my_ip")
  else if optIntBad d.signal_level then .reject (msgMustInt "signal_level")
  else if optIntBad d.pavilion_number then .reject (msgMustInt "pavilion_number")
  else if optIntBad d.floor then .reject (msgMustInt "floor")
  else
    match d.bssid.getD .vnull with
    | .vstr bs =>
      if ¬(pyMacMatch bs = true) then .reject msgBadBssid
      else
        let freq := d.frequency.getD .vnull
        if ¬(freq.isInt = true) ∨ freq.intVal ≤ 0 then .reject msgBadFreq
        else
          let rssi := d.rssi.getD .vnull
          if ¬(rssi.isInt = true) ∨ ¬(-100 ≤ rssi.intVal ∧ rssi.intVal ≤ 0) then .reject msgBadRssi
          else
            let ts := d.timestamp.getD .vnull
            if ¬(ts.isInt = true) ∨ ts.intVal < 0 then .reject msgBadTs
            else
              let ssid := d.ssid.getD .vnull
              if ¬(ssid.isStr = true) ∨ ssid.strVal.length = 0 then .reject msgBadSsid
              else
                let bw := d.channel_bandwidth.getD .vnull
                if ¬(bw.isStr = true) ∨ ¬(bwSet.contains bw.strVal = true) then .reject msgBadBw
                else
                  let cap := d.capabilities.getD .vnull
                  if ¬(cap.isStr = true) then .reject msgBadCap
                  else .ok
    | _ => .raise msgReTypeError

end WiFiDB

/-- One row of the wifi_networks table, holding exactly the values
bound by the INSERT of WiFiDB.create: data[k] for the seven NOT NULL
columns and data.get(k) for the optional ones (none = SQL NULL). -/
structure Row where
  bssid : Value
  frequency : Value
  rssi : Value
  ssid : Value
  timestamp : Value
  channel_bandwidth : Value
  capabilities : Value
  password : Option Value
  dns_server : Option Value
  gateway : Option Value
  my_ip : Option Value
  signal_level : Option Value
  pavilion_number : Option Value
  floor : Option Value
deriving DecidableEq, Repr

/-- The wifi_networks table in insertion order. -/
abbrev Store := List Row

namespace WiFiDB

/-- The row WiFiDB.create inserts for a dict: data[k] for the required
keys (present whenever checker passed, hence the unreachable getD
defaults) and data.get(k) for the optional ones. -/
def mkRow (d : Rec) : Row where
  bssid := d.bssid.getD .vnull
  frequency := d.frequency.getD .vnull
  rssi := d.rssi.getD .vnull
  ssid := d.ssid.getD .vnull
  timestamp := d.timestamp.getD .vnull
  channel_bandwidth := d.channel_bandwidth.getD .vnull
  capabilities := d.capabilities.getD .vnull
  password := d.password
  dns_server := d.dns_server
  gateway := d.gateway
  my_ip := d.my_ip
  signal_level := d.signal_level
  pavilion_number := d.pavilion_number
  floor := d.floor

/-- Outcome of WiFiDB.create. Python returns True on success and False
otherwise after printing which failure occurred; the constructors keep
the two False paths (checker reject vs sqlite IntegrityError on a
duplicate bssid primary key) distinguishable. -/
inductive CreateOut where
  | success
  | validationFailed (msg : String)
  | conflict
deriving DecidableEq, Repr

/-- The bool WiFiDB.create actually returns to its caller. -/
def CreateOut.toBool : CreateOut → Bool
  | .success => true
  | _ => false

/-- Database.py WiFiDB.create (lines 130-167): re-run checker, then
INSERT; the PRIMARY KEY on bssid makes the INSERT raise IntegrityError
(returning False) iff a row with an equal bssid already exists —
insert-if-absent, never an overwrite. A TypeError raised by checker
(non-string bssid) propagates: the checker call is outside the try
block. -/
def create (d : Rec) (st : Store) : Except String (CreateOut × Store) :=
  match checker d with
  | .raise m => .error m
  | .reject m => .ok (.validationFailed m, st)
  | .ok =>
    if st.any (fun r => r.bssid == d.bssid.getD .vnull) then .ok (.conflict, st)
    else .ok (.success, st ++ [mkRow d])

/-- Database.py WiFiDB.read (lines 173-186): SELECT * — filtered by
bssid only when the argument is truthy (Python "if bssid:"), so none
and the empty string both scan the whole table. -/
def read (bssid : Option String) (st : Store) : List Row :=
  match bssid with
  | some b => if b ≠ "" then st.filter (fun r => r.bssid == .vstr b) else st
  | none => st

/-- Database.py WiFiDB.update (lines 191-241): re-run checker, require
the target bssid to exist (via read), then UPDATE every column except
bssid for the rows whose key matches; returns rowcount > 0. -/
def update (bssid : String) (d : Rec) (st : Store) : Except String (Bool × Store) :=
  match checker d with
  | .raise m => .error m
  | .reject _ => .ok (false, st)
  | .ok =>
    if (read (some bssid) st).isEmpty then .ok (false, st)
    else
      let st2 := st.map (fun r =>
        if r.bssid == .vstr bssid then
          { r with
            frequency := d.frequency.getD .vnull
            rssi := d.rssi.getD .vnull
            ssid := d.ssid.getD .vnull
            timestamp := d.timestamp.getD .vnull
            channel_bandwidth := d.channel_bandwidth.getD .vnull
            capabilities := d.capabilities.getD .vnull
            password := d.password
            dns_server := d.dns_server
            gateway := d.gateway
            my_ip := d.my_ip
            signal_level := d.signal_level
            pavilion_number := d.pavilion_number
            floor := d.floor }
        else r)
      .ok (st.any (fun r => r.bssid == .vstr bssid), st2)

end WiFiDB

/-- tools/stroka_db.py Stroka_Db: exactly the attributes its
initializer defines — and nothing else; in particular there is no
floor attribute, although WiFiDB._stroka_to_dict reads one. The
initializer takes no arguments and sets the defaults shown; field
values are kept general because Python allows rebinding them later. -/
structure Stroka_Db where
  bssid : String := " "
  freq : Int := 0
  rssi : Int := 0
  ssid : String := " "
  timestamp : Int := 0
  volna : String := " "
  tochka_dostupa : String := " "
  password : String := " "
  dns_server : String := " "
  shluz : String := " "
  «local» : String := " "
  uroven_signala : Int := 0
  pavilion : Int := 0
deriving DecidableEq, Repr

/-- Python getattr on a Stroka_Db instance: a value for the attribute
names the class defines, none (AttributeError) for every other name. -/
def strokaGetAttr (s : Stroka_Db) : String → Option Value
  | "bssid" => some (.vstr s.bssid)
  | "freq" => some (.vint s.freq)
  | "rssi" => some (.vint s.rssi)
  | "ssid" => some (.vstr s.ssid)
  | "timestamp" => some (.vint s.timestamp)
  | "volna" => some (.vstr s.volna)
  | "tochka_dostupa" => some (.vstr s.tochka_dostupa)
  | "password" => some (.vstr s.password)
  | "dns_server" => some (.vstr s.dns_server)
  | "shluz" => some (.vstr s.shluz)
  | "local" => some (.vstr s.«local»)
  | "uroven_signala" => some (.vint s.uroven_signala)
  | "pavilion" => some (.vint s.pavilion)
  | _ => none

/-- The AttributeError message for a missing Stroka_Db attribute. -/
def attrErr (name : String) : String :=
  "AttributeError: \x27Stroka_Db\x27 object has no attribute \x27" ++ name ++ "\x27"

/-- An attribute access that may raise AttributeError. -/
def pyAttr (s : Stroka_Db) (name : String) : Except String Value :=
  match strokaGetAttr s name with
  | some v => .ok v
  | none => .error (attrErr name)

namespace WiFiDB

/-- Database.py WiFiDB._stroka_to_dict (lines 53-69): the dict literal
evaluates its values left to right, reading one attribute per entry
(floor last); the " "/0 sentinels are turned into None (here: vnull,
i.e. a present key with value None). -/
def stroka_to_dict (s : Stroka_Db) : Except String Rec := do
  let vb ← pyAttr s "bssid"
  let vf ← pyAttr s "freq"
  let vr ← pyAttr s "rssi"
  let vs ← pyAttr s "ssid"
  let vt ← pyAttr s "timestamp"
  let vv ← pyAttr s "volna"
  let vtd ← pyAttr s "tochka_dostupa"
  let vpw ← pyAttr s "password"
  let vdns ← pyAttr s "dns_server"
  let vsh ← pyAttr s "shluz"
  let vloc ← pyAttr s "local"
  let vur ← pyAttr s "uroven_signala"
  let vpav ← pyAttr s "pavilion"
  let vfl ← pyAttr s "floor"
  return {
    bssid := some vb
    frequency := some vf
    rssi := some vr
    ssid := some vs
    timestamp := some vt
    channel_bandwidth := some vv
    capabilities := some vtd
    password := some (if vpw == Value.vstr " " then .vnull else vpw)
    dns_server := some (if vdns == Value.vstr " " then .vnull else vdns)
    gateway := some (if vsh == Value.vstr " " then .vnull else vsh)
    my_ip := some (if vloc == Value.vstr " " then .vnull else vloc)
    signal_level := some (if vur == Value.vint 0 then .vnull else vur)
    pavilion_number := some (if vpav == Value.vint 0 then .vnull else vpav)
    floor := some (if vfl == Value.vint 0 then .vnull else vfl) }

/-- Database.py WiFiDB.create_from_stroka (lines 169-171). -/
def create_from_stroka (s : Stroka_Db) (st : Store) : Except String (CreateOut × Store) := do
  let d ← stroka_to_dict s
  create d st

/-- Database.py WiFiDB.update_from_stroka (lines 243-248): convert,
refuse a mismatched bssid (returning False), else delegate to update. -/
def update_from_stroka (bssid : String) (s : Stroka_Db) (st : Store) :
    Except String (Bool × Store) := do
  let d ← stroka_to_dict s
  if ¬(d.bssid.getD .vnull == Value.vstr bssid) then return (false, st)
  else update bssid d st

end WiFiDB

/-- controler.py WiFiNetwork dataclass (lines 11-19). bssid is bound to
norm.get('bssid') without any conversion (so it can be any value,
None included); the three strings go through str(...); the three ints
through the checked int(...) coercions. -/
structure WiFiNetwork where
  bssid : Value
  frequency : Int
  rssi : Int
  ssid : String
  timestamp : Int
  channel_bandwidth : String
  capabilities : String
deriving DecidableEq, Repr

/-- An error escaping Controller.build_network, tagged with the field
being processed: valueError models the ValueError build_network itself
raises (wrapping a KeyError/ValueError from the coercion, or its own
range check); typeError models the TypeError from int(None), which its
except clauses do not catch. The Python message embeds the repr of the
inner exception; only the field and the kind are modelled. -/
inductive BuildErr where
  | valueError (field : String)
  | typeError (field : String)
deriving DecidableEq, Repr

namespace Controller

/-- The coercion for the channel_bandwidth_mhz alias inside
build_network: str(int(v)) when int() succeeds, else str(v) (the inner
try catches every exception). -/
def bwFromMhz (v : Value) : Value :=
  match pyIntCoerce v with
  | .ok n => .vstr (toString n)
  | _ => .vstr (pyStr v)

/-- controler.py Controller.build_network, lines 55-73: the shallow
copy with the alias/unit normalisation — copy frequency_mhz to a
missing frequency, coerce channel_bandwidth_mhz into a missing
channel_bandwidth, and integer-divide an int timestamp above 10^12 (a
millisecond epoch) by 1000. The source's three sequential in-place
updates read and write pairwise disjoint fields, so they are written
here as one per-field update. -/
def normalizeAliases (d : Rec) : Rec :=
  { d with
    frequency :=
      if d.frequency.isNone && d.frequency_mhz.isSome then d.frequency_mhz else d.frequency
    channel_bandwidth :=
      if d.channel_bandwidth.isNone && d.channel_bandwidth_mhz.isSome then
        some (bwFromMhz (d.channel_bandwidth_mhz.getD .vnull))
      else d.channel_bandwidth
    timestamp :=
      match d.timestamp with
      | some v =>
        if v.isInt ∧ 10 ^ 12 < v.intVal then some (.vint (v.intVal / 1000)) else some v
      | none => none }

/-- controler.py Controller.build_network (lines 50-105): alias
normalisation (normalizeAliases), then the three guarded int
conversions. Note the source's inverted frequency check — "if
frequency != 0: raise ValueError" with a message demanding a positive
number — and "if timestamp <= 0: raise"; both raises happen inside the
try and are re-raised as ValueError. -/
def build_network (d : Rec) : Except BuildErr WiFiNetwork :=
  let norm := normalizeAliases d
  match norm.frequency with
  | none => .error (.valueError "frequency")
  | some fv =>
    match pyIntCoerce fv with
    | .typeError => .error (.typeError "frequency")
    | .valueError => .error (.valueError "frequency")
    | .ok fn =>
      if fn ≠ 0 then .error (.valueError "frequency")
      else
        match norm.rssi with
        | none => .error (.valueError "rssi")
        | some rv =>
          match pyIntCoerce rv with
          | .typeError => .error (.typeError "rssi")
          | .valueError => .error (.valueError "rssi")
          | .ok rn =>
            match norm.timestamp with
            | none => .error (.valueError "timestamp")
            | some tv =>
              match pyIntCoerce tv with
              | .typeError => .error (.typeError "timestamp")
              | .valueError => .error (.valueError "timestamp")
              | .ok tn =>
                if tn ≤ 0 then .error (.valueError "timestamp")
                else
                  .ok {
                    bssid := norm.bssid.getD .vnull
                    frequency := fn
                    rssi := rn
                    ssid := pyStr (norm.ssid.getD (.vstr ""))
                    timestamp := tn
                    channel_bandwidth := pyStr (norm.channel_bandwidth.getD (.vstr ""))
                    capabilities := pyStr (norm.capabilities.getD (.vstr "")) }

/-- The seven-field dict Controller.save_network rebuilds from a
WiFiNetwork before calling WiFiDB.create. -/
def netToData (n : WiFiNetwork) : Rec where
  bssid := some n.bssid
  frequency := some (.vint n.frequency)
  rssi := some (.vint n.rssi)
  ssid := some (.vstr n.ssid)
  timestamp := some (.vint n.timestamp)
  channel_bandwidth := some (.vstr n.channel_bandwidth)
  capabilities := some (.vstr n.capabilities)

/-- controler.py Controller.save_network (lines 107-124): build the
dict and delegate to WiFiDB.create, returning its bool. -/
def save_network (n : WiFiNetwork) (st : Store) : Except String (WiFiDB.CreateOut × Store) :=
  WiFiDB.create (netToData n) st

/-- The attribute names the Controller class of controler.py defines:
the instance attributes set in __init__ and the methods of the class
body. There is no update_network, although handlers.process_password
calls controller.update_network. -/
def controllerAttrs : List String :=
  ["_initialized", "db", "data_processor", "data",
   "parse_json", "build_network", "save_network",
   "get_all_networks", "process_payload_and_save", "logic"]

end Controller

/-- The aiogram FSM states of handlers.py (class Form); a cleared/None
state is idle. -/
inductive FormState where
  | idle
  | waiting_for_pavilion
  | waiting_for_password
deriving DecidableEq, Repr

/-- The FSM context data handlers.py writes via state.update_data: the
keys bssid and pavilion (values of any Python type — the bssid slot in
fact receives the boolean save result, see handle_text_dict). -/
structure FSMData where
  bssid : Option Value := none
  pavilion : Option Value := none
deriving DecidableEq, Repr

namespace Handlers

/-- handlers._prepare_wifi_data, the frequency/rssi/timestamp slots:
a present None becomes 0 (first loop), a missing key becomes 0 (second
loop), anything else is kept. -/
def prepNum : Option Value → Option Value
  | none => some (.vint 0)
  | some .vnull => some (.vint 0)
  | some v => some v

/-- handlers._prepare_wifi_data, the ssid/channel_bandwidth/capabilities
slots: a present None and a missing key both become "". -/
def prepStrField : Option Value → Option Value
  | none => some (.vstr "")
  | some .vnull => some (.vstr "")
  | some v => some v

/-- handlers._prepare_wifi_data, the bssid slot: missing or None
becomes "" (the elif of the first loop is not re-run on the same
pass), while a present empty string becomes the all-zero MAC. -/
def prepBssid : Option Value → Option Value
  | none => some (.vstr "")
  | some .vnull => some (.vstr "")
  | some (.vstr "") => some (.vstr "00:00:00:00:00:00")
  | some v => some v

/-- handlers._prepare_wifi_data (lines 108-128). Only the seven
required keys are ever touched; other keys pass through. -/
def _prepare_wifi_data (d : Rec) : Rec :=
  { d with
    bssid := prepBssid d.bssid
    frequency := prepNum d.frequency
    rssi := prepNum d.rssi
    timestamp := prepNum d.timestamp
    ssid := prepStrField d.ssid
    channel_bandwidth := prepStrField d.channel_bandwidth
    capabilities := prepStrField d.capabilities }

/-- handlers._validate_wifi_data (lines 84-105): (ok, error message);
presence of five fields, then the literal source conditions in source
order. -/
def _validate_wifi_data (d : Rec) : Bool × String :=
  if d.bssid.isNone then (false, msgMissing "bssid")
  else if d.frequency.isNone then (false, msgMissing "frequency")
  else if d.rssi.isNone then (false, msgMissing "rssi")
  else if d.ssid.isNone then (false, msgMissing "ssid")
  else if d.timestamp.isNone then (false, msgMissing "timestamp")
  else
    let bssid := d.bssid.getD .vnull
    if ¬(bssid.isStr = true) ∨ bssid.strVal.length = 0 then
      (false, "BSSID должен быть непустой строкой")
    else
      let ssid := d.ssid.getD .vnull
      if ¬(ssid.isStr = true) then (false, "SSID должен быть строкой")
      else
        let freq := d.frequency.getD .vnull
        if ¬(freq.isNum = true) ∨ freq.numVal ≤ 0 then
          (false, "Frequency должен быть положительным числом")
        else
          let rssi := d.rssi.getD .vnull
          if ¬(rssi.isInt = true) ∨ 0 < rssi.intVal then
            (false, "RSSI должен быть целым отрицательным числом")
          else
            let ts := d.timestamp.getD .vnull
            if ¬(ts.isNum = true) ∨ ts.numVal ≤ 0 then
              (false, "Timestamp должен быть положительным числом")
            else (true, "")

/-- handlers._is_example_payload (both copies, lines 224-238 and
389-397): a dict whose bssid strips to the placeholder
00:11:22:33:44:55, or whose ssid equals "MyWiFi". -/
def _is_example_payload (d : Rec) : Bool :=
  let bssid := d.bssid.getD (.vstr "")
  if bssid.isStr && (pyStrip bssid.strVal == "00:11:22:33:44:55") then true
  else if d.ssid == some (Value.vstr "MyWiFi") then true
  else false

/-- The stringified exception text interpolated into the "Ошибка при
обработке данных" reply; only the kind and field are modelled. -/
def buildErrStr : BuildErr → String
  | .valueError f => "ValueError: " ++ f
  | .typeError f => "TypeError: " ++ f

/-- Result of _process_single_wifi_record: retTrue is whether the
Python function returned the truthy save result (False models a None
return), plus the store after any create call, the replies sent, and
how many times WiFiDB.create was invoked. -/
structure SingleRes where
  retTrue : Bool
  store : Store
  msgs : List String
  createCalls : Nat
deriving DecidableEq, Repr

/-- handlers._process_single_wifi_record (lines 131-164): prepare,
validate, build, save. The second "is_valid = _validate_wifi_data(...)"
at line 144 binds a (bool, str) tuple, which is always truthy, so its
"if not is_valid" branch never runs and the local error_messages_sent
dict is unobservable; lines 165-169 (an over-indented return after a
return and an orphan except) are dead text and are not modelled. The
except at line 161 catches both build_network errors and a TypeError
escaping create. -/
def _process_single_wifi_record (d : Rec) (st : Store) : SingleRes :=
  let prepared := _prepare_wifi_data d
  let v := _validate_wifi_data prepared
  if ¬(v.1 = true) then
    ⟨false, st, ["❌ Ошибка валидации данных: " ++ v.2], 0⟩
  else
    match Controller.build_network prepared with
    | .error e => ⟨false, st, ["❌ Ошибка при обработке данных: " ++ buildErrStr e], 0⟩
    | .ok nw =>
      match Controller.save_network nw st with
      | .error m => ⟨false, st, ["❌ Ошибка при обработке данных: " ++ m], 1⟩
      | .ok (out, st2) =>
        if out.toBool then ⟨true, st2, [], 1⟩
        else ⟨false, st2, ["❌ Не удалось сохранить данные в БД."], 1⟩

/-- The example-payload warning of handlers.py. -/
def exampleWarning : String :=
  "⚠️ Похоже, вы прислали пример из инструкции, а не реальные данные. Пожалуйста, пришлите реальные записи."

/-- The combined observable outcome of a text-message handler run. -/
structure HandlerRes where
  state : FormState
  data : FSMData
  store : Store
  msgs : List String
  createCalls : Nat
deriving DecidableEq, Repr

/-- handlers.handle_text_or_file (lines 371-422), specialised to a
successfully parsed single JSON object (the dict branch; list payloads
and JSON parse errors take other branches). The payload is processed
by _process_single_wifi_record FIRST (line 383) — on a truthy result
the misnamed bssid variable, actually the boolean save result, is
stored in the FSM context and the pavilion prompt is issued — and only
afterwards is _is_example_payload consulted (line 411). In the
non-example branch the second _process_single_wifi_record call at line
418 passes two arguments to a three-parameter function, so Python
raises TypeError before entering it; the second component carries that
uncaught exception. -/
def handle_text_dict (d : Rec) (fs : FormState) (fd : FSMData) (st : Store) :
    HandlerRes × Option String :=
  let r1 := _process_single_wifi_record d st
  let step1 : FormState × FSMData × List String :=
    if r1.retTrue then
      (.waiting_for_pavilion, { fd with bssid := some (.vbool true) },
        r1.msgs ++ ["🏢 Введите номер павильона:"])
    else (fs, fd, r1.msgs)
  if _is_example_payload d then
    (⟨step1.1, step1.2.1, r1.store, step1.2.2 ++ [exampleWarning], r1.createCalls⟩, none)
  else
    (⟨step1.1, step1.2.1, r1.store, step1.2.2, r1.createCalls⟩,
      some "TypeError: _process_single_wifi_record() missing 1 required positional argument: \x27state\x27")

/-- The re-prompt sent by process_pavilion on a bad pavilion number. -/
def pavilionErrMsg : String :=
  "❌ Номер павильона должен быть положительным целым числом. Попробуйте снова:"

/-- The password prompt process_pavilion sends when it advances. -/
def passwordPrompt : String := "🔑 Введите пароль от Wi-Fi сети:"

/-- handlers.process_pavilion (lines 425-437), the
Form.waiting_for_pavilion handler: int(text.strip()); a non-positive
result raises ValueError; the except answers the re-prompt and leaves
both the FSM data and the state untouched; on success the pavilion is
recorded and the state moves to waiting_for_password. -/
def process_pavilion (text : String) (fd : FSMData) : FSMData × FormState × String :=
  match pyIntParse (pyStrip text) with
  | some n =>
    if n ≤ 0 then (fd, .waiting_for_pavilion, pavilionErrMsg)
    else ({ fd with pavilion := some (.vint n) }, .waiting_for_password, passwordPrompt)
  | none => (fd, .waiting_for_pavilion, pavilionErrMsg)

/-- handlers.process_password (lines 439-452), the
Form.waiting_for_password handler: strips the text, reads the held
bssid/pavilion, then calls controller.update_network — an attribute
the Controller class does not define (see Controller.controllerAttrs),
so Python raises AttributeError at the call site; neither the store
update nor state.clear() is ever executed, which the unchanged
returned state/store and the some-exception component record. The
first branch would model a successful attribute lookup; it has no
source to dispatch to and is unreachable (the attribute list contains
no update_network). -/
def process_password (text : String) (fd : FSMData) (st : Store) :
    (FSMData × FormState × Store × List String) × Option String :=
  let _password := pyStrip text
  let _bssid := fd.bssid
  let _pavilion := fd.pavilion
  if Controller.controllerAttrs.contains "update_network" then
    ((fd, .waiting_for_password, st, []), some "unreachable: no such method exists")
  else
    ((fd, .waiting_for_password, st, []),
      some "AttributeError: \x27Controller\x27 object has no attribute \x27update_network\x27")

end Handlers

namespace BotDb

/-- A JSON object for database.py: an association list of key/value
pairs in dict insertion order with distinct keys (a Python dict). The
records this bot ingests are flat, so nested values are not modelled. -/
abbrev Obj := List (String × Value)

/-- Lexicographic code-point order on char lists: the order Python
sorted() uses on strings. -/
def listLe : List Char → List Char → Bool
  | [], _ => true
  | _ :: _, [] => false
  | a :: as, b :: bs => if a < b then true else if b < a then false else listLe as bs

/-- Python string order (code-point lexicographic). -/
def keyLe (a b : String) : Bool := listLe a.data b.data

/-- Insert one pair into a key-sorted list. -/
def insertSorted (p : String × Value) : Obj → Obj
  | [] => [p]
  | q :: rest => if keyLe p.1 q.1 then p :: q :: rest else q :: insertSorted p rest

/-- Sort an object's pairs by key ascending (json.dumps sort_keys). -/
def sortByKey : Obj → Obj
  | [] => []
  | p :: rest => insertSorted p (sortByKey rest)

/-- database.py _normalize_and_hash (lines 30-37): sha256 of
json.dumps(obj, sort_keys=True, ...), modelled by its injective core —
the key-sorted pair list. On flat objects with distinct keys the
sorted-key JSON text determines and is determined by this list, and
sha256 is treated as collision-free, so digest equality in the source
corresponds exactly to equality of this canonical form. -/
def _normalize_and_hash (o : Obj) : Obj := sortByKey o

/-- One row of database.py's records table: id, pavilion, data,
data_hash (created_ts is wall-clock time, irrelevant to dedup, and not
modelled). -/
structure DbRow where
  id : Nat
  pavilion : Option Value
  data : Obj
  data_hash : Obj
deriving DecidableEq, Repr

/-- database.py Database.add_record (lines 83-111): INSERT of
(pavilion, data, data_hash); the UNIQUE constraint on data_hash makes
the insert raise IntegrityError — duplicate ignored, None returned —
iff some stored row carries the same hash. Row ids model AUTOINCREMENT
over a table that never saw a delete. -/
def add_record (o : Obj) (st : List DbRow) : Option Nat × List DbRow :=
  let h := _normalize_and_hash o
  if st.any (fun r => r.data_hash == h) then (none, st)
  else
    (some (st.length + 1),
      st ++ [{ id := st.length + 1, pavilion := o.lookup "pavilion", data := o, data_hash := h }])

/-- Feed a batch of objects through add_record in order: the dedup
pipeline over one source. -/
def addAll (os : List Obj) (st : List DbRow) : List DbRow :=
  os.foldl (fun acc o => (add_record o acc).2) st

end BotDb

/-- The round-trip scenario record of the spec: all seven required
fields, no optional field set. -/
def recScenario : Rec where
  bssid := some (.vstr "AA:BB:CC:DD:EE:FF")
  frequency := some (.vint 2412)
  rssi := some (.vint (-50))
  ssid := some (.vstr "TestNet")
  timestamp := some (.vint 1707708416)
  channel_bandwidth := some (.vstr "20")
  capabilities := some (.vstr "WPA2")

/-- recScenario with a single newline appended to the bssid: not of
the form XX:XX:XX:XX:XX:XX, yet accepted by the Python regex. -/
def recNl : Rec where
  bssid := some (.vstr "aa:bb:cc:dd:ee:ff\n")
  frequency := some (.vint 2412)
  rssi := some (.vint (-50))
  ssid := some (.vstr "TestNet")
  timestamp := some (.vint 1707708416)
  channel_bandwidth := some (.vstr "20")
  capabilities := some (.vstr "WPA2")

/-- A fully well-formed input for the normalisation claim: positive
integer frequency 2412 and timestamp 0. -/
def recC2 : Rec where
  bssid := some (.vstr "AA:BB:CC:DD:EE:FF")
  frequency := some (.vint 2412)
  rssi := some (.vint (-50))
  ssid := some (.vstr "TestNet")
  timestamp := some (.vint 0)
  channel_bandwidth := some (.vstr "20")
  capabilities := some (.vstr "WPA2")

/-- A record whose bssid fails the MAC pattern AND whose optional
password field has the wrong type. -/
def recC9 : Rec where
  bssid := some (.vstr "not-a-mac")
  frequency := some (.vint 2412)
  rssi := some (.vint (-50))
  ssid := some (.vstr "TestNet")
  timestamp := some (.vint 1707708416)
  channel_bandwidth := some (.vstr "20")
  capabilities := some (.vstr "WPA2")
  password := some (.vint 5)

/-- A single-object payload that matches the documentation example
(placeholder bssid) and passes _validate_wifi_data while build_network
coerces its float frequency 0.5 to the integer 0, so that
processing reaches WiFiDB.create. -/
def recC6 : Rec where
  bssid := some (.vstr "00:11:22:33:44:55")
  frequency := some (.vfloat (mkRat 1 2))
  rssi := some (.vint (-50))
  ssid := some (.vstr "HomeNet")
  timestamp := some (.vint 1698115200)

/-- Dedup test record A: the seven default signature fields plus an
extra field. -/
def objA : BotDb.Obj :=
  [("bssid", .vstr "AA:BB:CC:DD:EE:01"), ("frequency", .vint 2412),
   ("rssi", .vint (-40)), ("ssid", .vstr "Net1"), ("timestamp", .vint 100),
   ("channel_bandwidth", .vstr "20"), ("capabilities", .vstr "WPA2"),
   ("extra", .vint 1)]

/-- Dedup test record B: a different network. -/
def objB : BotDb.Obj :=
  [("bssid", .vstr "AA:BB:CC:DD:EE:02"), ("frequency", .vint 5180),
   ("rssi", .vint (-60)), ("ssid", .vstr "Net2"), ("timestamp", .vint 101),
   ("channel_bandwidth", .vstr "40"), ("capabilities", .vstr "WPA3"),
   ("extra", .vint 1)]

/-- objA with the extra field changed: it agrees with objA on every
field of the default signature list (bssid, frequency, rssi, ssid,
timestamp, channel_bandwidth, capabilities) and differs outside it. -/
def objA2 : BotDb.Obj :=
  [("bssid", .vstr "AA:BB:CC:DD:EE:01"), ("frequency", .vint 2412),
   ("rssi", .vint (-40)), ("ssid", .vstr "Net1"), ("timestamp", .vint 100),
   ("channel_bandwidth", .vstr "20"), ("capabilities", .vstr "WPA2"),
   ("extra", .vint 2)]

/-- objA with its pairs listed in a different key order: the same dict
content, hence the same sort_keys serialisation and digest. -/
def objA3 : BotDb.Obj :=
  [("capabilities", .vstr "WPA2"), ("bssid", .vstr "AA:BB:CC:DD:EE:01"),
   ("frequency", .vint 2412), ("rssi", .vint (-40)), ("ssid", .vstr "Net1"),
   ("timestamp", .vint 100), ("channel_bandwidth", .vstr "20"),
   ("extra", .vint 1)]

/-! Helper lemmas. -/

theorem string_length_eq_zero_iff (s : String) : s.length = 0 ↔ s = "" := by
  cases s with
  | mk l =>
    constructor
    · intro h
      have : l = [] := by simpa [String.length] using h
      subst this; rfl
    · intro h
      rw [h]
      rfl

theorem normalizeAliases_frequency (d : Rec) (fv : Value) (hf : d.frequency = some fv) :
    (Controller.normalizeAliases d).frequency = some fv := by
  simp [Controller.normalizeAliases, hf]

theorem normalizeAliases_rssi (d : Rec) :
    (Controller.normalizeAliases d).rssi = d.rssi := rfl

theorem normalizeAliases_timestamp_of_nonpos (d : Rec) (tv : Value) (t : Int)
    (ht : d.timestamp = some tv) (hco : pyIntCoerce tv = .ok t) (h0 : t ≤ 0) :
    (Controller.normalizeAliases d).timestamp = some tv := by
  have hcond : ¬(tv.isInt = true ∧ 10 ^ 12 < tv.intVal) := by
    rintro ⟨hi, hgt⟩
    rcases tv with n | bb | q | ss | _ <;>
      simp_all [pyIntCoerce, Value.isInt, Value.intVal] <;>
      omega
  simp only [Controller.normalizeAliases, ht]
  rw [if_neg hcond]

/-! The claim theorems. -/

/-- C10: for every Stroka_Db object, the conversion _stroka_to_dict
raises AttributeError on the undefined floor attribute, so both
create_from_stroka and update_from_stroka raise before reaching the
store: no record can be stored or updated through this path. -/
theorem claim_C10 (s : Stroka_Db) (b : String) (st : Store) :
    WiFiDB.stroka_to_dict s = .error (attrErr "floor") ∧
    WiFiDB.create_from_stroka s st = .error (attrErr "floor") ∧
    WiFiDB.update_from_stroka b s st = .error (attrErr "floor") :=
  ⟨rfl, rfl, rfl⟩

/-- C8 (code bug): in the waiting_for_password state, process_password
calls controller.update_network, an attribute the Controller class
does not define, so the handler raises AttributeError: the FSM data
and state are unchanged (state.clear() is never reached), the store is
untouched, and no update is performed — the machine does not return to
Idle and nothing is merged onto the stored record. -/
theorem claim_C8 (t : String) (fd : FSMData) (st : Store) :
    Handlers.process_password t fd st =
      ((fd, FormState.waiting_for_password, st, []),
        some "AttributeError: \x27Controller\x27 object has no attribute \x27update_network\x27") ∧
    Controller.controllerAttrs.contains "update_network" = false :=
  ⟨rfl, rfl⟩

/-- C2 counterexample: a fully well-formed input with the required
fields, positive integer frequency 2412 and timestamp 0 — the claim
says build_network passes it through without raising, but it raises
ValueError (at the inverted frequency check). -/
theorem claim_C2_counterexample :
    Controller.build_network recC2 = .error (BuildErr.valueError "frequency") := rfl

/-- C2 amended: Controller.build_network does validate and reject its
input. It raises ValueError whenever the (alias-normalised) frequency
field coerces to any nonzero integer — the source's inverted check,
whose message demands a positive number — and, when frequency coerces
to 0 and rssi coerces, whenever the timestamp coerces to a non-positive
integer. In particular every payload with a positive integer frequency
(e.g. 2412) is rejected, and so is a timestamp of 0. -/
theorem claim_C2_amended :
    (∀ (d : Rec) (fv : Value) (n : Int),
      d.frequency = some fv → pyIntCoerce fv = .ok n → n ≠ 0 →
      Controller.build_network d = .error (.valueError "frequency")) ∧
    (∀ (d : Rec) (fv rv tv : Value) (m t : Int),
      d.frequency = some fv → pyIntCoerce fv = .ok 0 →
      d.rssi = some rv → pyIntCoerce rv = .ok m →
      d.timestamp = some tv → pyIntCoerce tv = .ok t → t ≤ 0 →
      Controller.build_network d = .error (.valueError "timestamp")) := by
  constructor
  · intro d fv n hf hco hnz
    have h1 := normalizeAliases_frequency d fv hf
    simp only [Controller.build_network]
    rw [h1]
    simp [hco, hnz]
  · intro d fv rv tv m t hf hf0 hr hrok ht htok h0
    have h1 := normalizeAliases_frequency d fv hf
    have h2 := normalizeAliases_rssi d
    have h3 := normalizeAliases_timestamp_of_nonpos d tv t ht htok h0
    simp only [Controller.build_network]
    rw [h1]
    simp [hf0, h2, hr, hrok, h3, htok, h0]

/-- C2 witness: the record with frequency 0 (the only value surviving
the inverted check) and timestamp 0 is rejected at the timestamp
check. -/
theorem claim_C2_witness :
    Controller.build_network { recC2 with frequency := some (.vint 0) } =
      .error (.valueError "timestamp") :=
  claim_C2_amended.2 { recC2 with frequency := some (.vint 0) }
    (.vint 0) (.vint (-50)) (.vint 0) (-50) 0 rfl rfl rfl rfl rfl rfl (by decide)

/-- C7 counterexample: in the waiting_for_pavilion state the sentinel
inputs "0" and "none" are NOT accepted — neither advances the machine
to the password state (both re-prompt). -/
theorem claim_C7_counterexample :
    (Handlers.process_pavilion "0" ⟨some (.vstr "AA:BB:CC:DD:EE:FF"), none⟩).2.1 ≠
      FormState.waiting_for_password ∧
    (Handlers.process_pavilion "none" ⟨some (.vstr "AA:BB:CC:DD:EE:FF"), none⟩).2.1 ≠
      FormState.waiting_for_password := by decide

/-- C7 amended: process_pavilion accepts exactly the inputs whose
stripped text parses as a strictly positive integer literal, recording
the pavilion and advancing to waiting_for_password; every other input —
including the would-be sentinels "0" and "none" — re-prompts and leaves
both the FSM state and the held context unchanged. -/
theorem claim_C7_amended (t : String) (fd : FSMData) :
    (∀ n : Int, pyIntParse (pyStrip t) = some n → 0 < n →
      Handlers.process_pavilion t fd =
        ({ fd with pavilion := some (.vint n) }, FormState.waiting_for_password,
          Handlers.passwordPrompt)) ∧
    ((∀ n : Int, pyIntParse (pyStrip t) = some n → n ≤ 0) →
      Handlers.process_pavilion t fd =
        (fd, FormState.waiting_for_pavilion, Handlers.pavilionErrMsg)) := by
  constructor
  · intro n hn hpos
    simp only [Handlers.process_pavilion]
    rw [hn]
    simp [show ¬n ≤ 0 by omega]
  · intro hall
    cases hp : pyIntParse (pyStrip t) with
    | none => simp only [Handlers.process_pavilion]; rw [hp]
    | some n =>
      simp only [Handlers.process_pavilion]
      rw [hp]
      simp [hall n hp]

/-- C7 witness: the input " 17 " is accepted, recorded and advances. -/
theorem claim_C7_witness :
    Handlers.process_pavilion " 17 " ⟨some (.vstr "AA:BB:CC:DD:EE:FF"), none⟩ =
      (⟨some (.vstr "AA:BB:CC:DD:EE:FF"), some (.vint 17)⟩, FormState.waiting_for_password,
        Handlers.passwordPrompt) :=
  (claim_C7_amended " 17 " ⟨some (.vstr "AA:BB:CC:DD:EE:FF"), none⟩).1 17 (by decide) (by decide)

/-- C6 (code bug): the single-object text handler processes the
documentation-example payload recC6 (placeholder bssid
00:11:22:33:44:55) BEFORE consulting the example heuristic: one
WiFiDB.create call is performed (createCalls = 1) and a processing
reply precedes the example warning; the example warning is sent and
nothing ends up stored, but the guard did not prevent the create —
contradicting the claim that no create is performed for such a
payload. -/
theorem claim_C6 :
    Handlers.handle_text_dict recC6 FormState.idle ⟨none, none⟩ [] =
      (⟨FormState.idle, ⟨none, none⟩, [],
        ["❌ Не удалось сохранить данные в БД.", Handlers.exampleWarning], 1⟩, none) := by
  decide

/-- C5 counterexample: for the batch [objA, objB, objA2], where objA
and objA2 agree on every field of the default signature list (bssid,
frequency, rssi, ssid, timestamp, channel_bandwidth, capabilities) and
differ only outside it, the store does NOT retain [objA, objB]: all
three records are kept, because the digest covers the whole record. -/
theorem claim_C5_counterexample :
    (BotDb.addAll [objA, objB, objA2] []).map (fun r => r.data) ≠ [objA, objB] := by
  decide

/-- C5 amended: duplicate identity is whole-record identity — equality
of the sort_keys serialisation of ALL fields (_normalize_and_hash),
not of a configurable field list. With that identity, dedup is
order-preserving and first-seen-wins: for [A, B, A2] with A2 carrying
the same digest as A (and B a different one), the store retains
[A, B] in order and drops the later occurrence A2 — it is not merged. -/
theorem claim_C5_amended (A B A2 : BotDb.Obj)
    (hA : BotDb._normalize_and_hash A2 = BotDb._normalize_and_hash A)
    (hB : BotDb._normalize_and_hash B ≠ BotDb._normalize_and_hash A) :
    (BotDb.addAll [A, B, A2] []).map (fun r => r.data) = [A, B] := by
  have hB' : BotDb._normalize_and_hash A ≠ BotDb._normalize_and_hash B := fun h => hB h.symm
  simp [BotDb.addAll, BotDb.add_record, hA, hB']

/-- C5 witness: objA3 is objA with its pairs in a different insertion
order — the same dict, hence the same digest — so the batch
[objA, objB, objA3] retains [objA, objB]. -/
theorem claim_C5_witness :
    (BotDb.addAll [objA, objB, objA3] []).map (fun r => r.data) = [objA, objB] :=
  claim_C5_amended objA objB objA3 (by decide) (by decide)

/-- C9 counterexample: a record whose bssid fails the MAC pattern and
whose optional password field is a non-string is rejected with the
password reason, not the bssid reason — the optional-field type checks
run before the bssid check. -/
theorem claim_C9_counterexample :
    WiFiDB.checker recC9 = CheckOut.reject (msgMustStr "password") ∧
    WiFiDB.checker recC9 ≠ CheckOut.reject msgBadBssid := by decide

/-- C9 amended: after the required-presence checks, the optional-field
type checks run FIRST, before the bssid MAC check and the other
type/range checks, first failure winning: whenever all seven required
fields are present and a present password is not a string, checker
reports the password reason — even if bssid also fails the MAC
pattern. -/
theorem claim_C9_amended (d : Rec) (v : Value)
    (h1 : d.bssid.isSome = true) (h2 : d.frequency.isSome = true)
    (h3 : d.rssi.isSome = true) (h4 : d.ssid.isSome = true)
    (h5 : d.timestamp.isSome = true) (h6 : d.channel_bandwidth.isSome = true)
    (h7 : d.capabilities.isSome = true)
    (hp : d.password = some v) (hv : v.isStr = false) :
    WiFiDB.checker d = CheckOut.reject (msgMustStr "password") := by
  obtain ⟨b1, hb1⟩ := Option.isSome_iff_exists.mp h1
  obtain ⟨b2, hb2⟩ := Option.isSome_iff_exists.mp h2
  obtain ⟨b3, hb3⟩ := Option.isSome_iff_exists.mp h3
  obtain ⟨b4, hb4⟩ := Option.isSome_iff_exists.mp h4
  obtain ⟨b5, hb5⟩ := Option.isSome_iff_exists.mp h5
  obtain ⟨b6, hb6⟩ := Option.isSome_iff_exists.mp h6
  obtain ⟨b7, hb7⟩ := Option.isSome_iff_exists.mp h7
  simp [WiFiDB.checker, hb1, hb2, hb3, hb4, hb5, hb6, hb7, hp, optStrBad, hv]

/-- C9 witness: the record with bssid "not-a-mac" and password 5. -/
theorem claim_C9_witness :
    WiFiDB.checker recC9 = CheckOut.reject (msgMustStr "password") :=
  claim_C9_amended recC9 (.vint 5) rfl rfl rfl rfl rfl rfl rfl rfl rfl

/-- C1 counterexample: the record recNl has all seven required fields
well-typed and its bssid "aa:bb:cc:dd:ee:ff\n" does NOT match the MAC
pattern XX:XX:XX:XX:XX:XX (it carries a trailing newline), yet checker
returns success — Python's dollar anchor also matches before one
trailing newline. -/
theorem claim_C1_counterexample :
    WiFiDB.checker recNl = CheckOut.ok ∧ specMacMatch "aa:bb:cc:dd:ee:ff\n" = false := by
  decide

/-- C1 amended: for every record with the seven required fields present
and well-typed and with well-typed optional fields, checker succeeds
iff bssid matches the code's BSSID regex — six colon-separated hex
pairs optionally followed by one trailing newline (Python dollar
semantics) — frequency > 0, -100 ≤ rssi ≤ 0, timestamp ≥ 0, ssid is
non-empty, and channel_bandwidth is one of "20"/"40"/"80"/"160"
(capabilities being a string by hypothesis); otherwise it returns a
field-named rejection reason. -/
theorem claim_C1_amended (d : Rec) (bs ss bw cs : String) (fn rn tn : Int)
    (hb : d.bssid = some (.vstr bs))
    (hf : d.frequency = some (.vint fn))
    (hr : d.rssi = some (.vint rn))
    (hs : d.ssid = some (.vstr ss))
    (ht : d.timestamp = some (.vint tn))
    (hw : d.channel_bandwidth = some (.vstr bw))
    (hc : d.capabilities = some (.vstr cs))
    (hp : optStrBad d.password = false)
    (hdns : optStrBad d.dns_server = false)
    (hg : optStrBad d.gateway = false)
    (hm : optStrBad d.my_ip = false)
    (ho1 : optIntBad d.signal_level = false)
    (ho2 : optIntBad d.pavilion_number = false)
    (ho3 : optIntBad d.floor = false) :
    WiFiDB.checker d = CheckOut.ok ↔
      (pyMacMatch bs = true ∧ 0 < fn ∧ (-100 ≤ rn ∧ rn ≤ 0) ∧ 0 ≤ tn ∧
        ss ≠ "" ∧ bwSet.contains bw = true) := by
  simp only [WiFiDB.checker, hb, hf, hr, hs, ht, hw, hc, hp, hdns, hg, hm, ho1, ho2, ho3,
    Option.isNone_some, Option.getD_some, Value.isInt, Value.isStr, Value.intVal, Value.strVal,
    Bool.false_eq_true, if_false, not_true, false_or, string_length_eq_zero_iff]
  split_ifs <;> simp_all

/-- C1 witness: the scenario record is accepted by checker, and indeed
satisfies every condition of the amended iff. -/
theorem claim_C1_witness :
    WiFiDB.checker recScenario = CheckOut.ok :=
  (claim_C1_amended recScenario "AA:BB:CC:DD:EE:FF" "TestNet" "20" "WPA2" 2412 (-50) 1707708416
    rfl rfl rfl rfl rfl rfl rfl rfl rfl rfl rfl rfl rfl rfl).mpr (by decide)

/-- C3: after a successful create of a record whose bssid is the
non-empty string s, reading s returns exactly one row — the row built
from the created record — whose required columns carry exactly the
record's values and whose optional columns are exactly the record's
optional entries, so an unset optional field reads back as NULL (none),
never as a sentinel. -/
theorem claim_C3 (d : Rec) (s : String) (st st2 : Store)
    (hb : d.bssid = some (.vstr s)) (hs : s ≠ "")
    (h : WiFiDB.create d st = .ok (.success, st2)) :
    WiFiDB.read (some s) st2 = [WiFiDB.mkRow d] ∧
    (WiFiDB.mkRow d).bssid = .vstr s ∧
    (WiFiDB.mkRow d).frequency = d.frequency.getD .vnull ∧
    (WiFiDB.mkRow d).rssi = d.rssi.getD .vnull ∧
    (WiFiDB.mkRow d).ssid = d.ssid.getD .vnull ∧
    (WiFiDB.mkRow d).timestamp = d.timestamp.getD .vnull ∧
    (WiFiDB.mkRow d).channel_bandwidth = d.channel_bandwidth.getD .vnull ∧
    (WiFiDB.mkRow d).capabilities = d.capabilities.getD .vnull ∧
    (WiFiDB.mkRow d).password = d.password ∧
    (WiFiDB.mkRow d).dns_server = d.dns_server ∧
    (WiFiDB.mkRow d).gateway = d.gateway ∧
    (WiFiDB.mkRow d).my_ip = d.my_ip ∧
    (WiFiDB.mkRow d).signal_level = d.signal_level ∧
    (WiFiDB.mkRow d).pavilion_number = d.pavilion_number ∧
    (WiFiDB.mkRow d).floor = d.floor := by
  unfold WiFiDB.create at h
  cases hch : WiFiDB.checker d <;> rw [hch] at h
  case reject m => simp at h
  case raise m => simp at h
  case ok =>
    by_cases ha : st.any (fun r => r.bssid == d.bssid.getD .vnull) = true
    · rw [if_pos ha] at h; simp at h
    · rw [if_neg ha] at h
      simp only [Except.ok.injEq, Prod.mk.injEq] at h
      obtain ⟨-, hst⟩ := h
      subst hst
      refine ⟨?_, ?_, rfl, rfl, rfl, rfl, rfl, rfl, rfl, rfl, rfl, rfl, rfl, rfl, rfl⟩
      · rw [hb] at ha
        simp only [Option.getD_some] at ha
        have hfil : st.filter (fun r => r.bssid == Value.vstr s) = [] := by
          rw [List.filter_eq_nil_iff]
          intro r hr
          simp only [List.any_eq_true, not_exists, not_and] at ha
          intro hcontra
          exact absurd (by simpa using hcontra) (by simpa using fun hx => ha r hr hx)
        have hone : ((WiFiDB.mkRow d).bssid == Value.vstr s) = true := by
          simp [WiFiDB.mkRow, hb]
        simp only [WiFiDB.read]
        rw [if_pos hs, List.filter_append, hfil]
        simp [hone]
      · simp [WiFiDB.mkRow, hb]

/-- C3 witness: the spec's round-trip scenario on an empty store. -/
theorem claim_C3_witness :
    WiFiDB.read (some "AA:BB:CC:DD:EE:FF") [WiFiDB.mkRow recScenario] = [WiFiDB.mkRow recScenario] :=
  (claim_C3 recScenario "AA:BB:CC:DD:EE:FF" [] [WiFiDB.mkRow recScenario]
    rfl (by decide) (by rfl)).1

/-- C4: insert-if-absent. If a first create of d1 succeeded (turning st
into st1) and a second record d2 carries the same bssid value and
passes validation, then the second create returns Conflict and leaves
the store unchanged: exactly one row with that bssid remains, holding
the FIRST record's values — the second call never overwrites. -/
theorem claim_C4 (d1 d2 : Rec) (b : Value) (st st1 : Store)
    (hb1 : d1.bssid.getD .vnull = b) (hb2 : d2.bssid.getD .vnull = b)
    (h1 : WiFiDB.create d1 st = .ok (.success, st1))
    (h2 : WiFiDB.checker d2 = .ok) :
    WiFiDB.create d2 st1 = .ok (.conflict, st1) ∧
    st1.filter (fun r => r.bssid == b) = [WiFiDB.mkRow d1] := by
  unfold WiFiDB.create at h1 ⊢
  cases hch : WiFiDB.checker d1 <;> rw [hch] at h1
  case reject m => simp at h1
  case raise m => simp at h1
  case ok =>
    by_cases ha : st.any (fun r => r.bssid == d1.bssid.getD .vnull) = true
    · rw [if_pos ha] at h1; simp at h1
    · rw [if_neg ha] at h1
      simp only [Except.ok.injEq, Prod.mk.injEq] at h1
      obtain ⟨-, hst⟩ := h1
      subst hst
      rw [h2]
      have hrow : ((WiFiDB.mkRow d1).bssid == b) = true := by
        simp [WiFiDB.mkRow, hb1]
      have hany2 : (st ++ [WiFiDB.mkRow d1]).any (fun r => r.bssid == d2.bssid.getD .vnull) = true := by
        rw [hb2]
        simp only [List.any_append, List.any_cons, List.any_nil, Bool.or_false, hrow,
          Bool.or_true]
      rw [if_pos hany2]
      refine ⟨rfl, ?_⟩
      rw [hb1] at ha
      have hfil : st.filter (fun r => r.bssid == b) = [] := by
        rw [List.filter_eq_nil_iff]
        intro r hr
        simp only [List.any_eq_true, not_exists, not_and] at ha
        intro hcontra
        exact absurd (by simpa using hcontra) (by simpa using fun hx => ha r hr hx)
      simp [List.filter_append, hfil, hrow]

/-- C4 witness: creating the scenario record twice from the empty
store — the second call conflicts and the single stored row is the
first call's. -/
theorem claim_C4_witness :
    WiFiDB.create recScenario [WiFiDB.mkRow recScenario] =
      .ok (.conflict, [WiFiDB.mkRow recScenario]) :=
  (claim_C4 recScenario recScenario (.vstr "AA:BB:CC:DD:EE:FF") [] [WiFiDB.mkRow recScenario]
    rfl rfl (by rfl) (by rfl)).1
